import Mathlib

/-
  Verification of the OpenSearch neural-search JNI boundary layer
  (jni/src/jni_util.cpp and jni/src/org_opensearch_neuralsearch_jni_NativeVsagService.cpp).

  Shallow embedding conventions:
  * jint / jlong / int64_t are modelled as Int; uint32_t values as Nat with an
    explicit (mod 2^32) narrowing; jfloat (32-bit float) values are carried as
    their bit patterns (Nat); float *arithmetic* (the expression 1 - distance in
    ConvertCppSearchResultsToJava) is kept symbolic via the JFloat inductive,
    because only the data flow, not IEEE semantics, is claimed.
  * The JNIEnv is modelled by an explicit JEnv state: the managed dataset's
    sparse-vector records, the pending managed exception, a counter for fresh
    local-reference handles, an acquire/release instrumentation trace for the
    transient views JNI hands out, and the native heap of shared_ptr boxes
    created by createIndex (addresses are nextBox+1, hence never zero).
  * The wrapped vsag library (Factory::CreateIndex, Index::Add/KnnSearch/
    Serialize/Deserialize) and the filesystem are external collaborators,
    modelled as an oracle record (VsagOracle).
  * C++ exceptions are modelled by Except CppExc; a JNI boundary function
    returning T is embedded as ... -> (Except CppExc T) x JEnv, and a dispatch
    wrapper (which cannot throw across the boundary) as ... -> T x JEnv.
-/

set_option maxRecDepth 10000

namespace NSJni

/-- Kinds of managed-side references and views handed out by the JNI
environment during dataset decode (jni_util.cpp:138-189), result encode
(jni_util.cpp:204-232) and string conversion (jni_util.cpp:121-136). -/
inductive VKind
  /-- the jobjectArray returned by CallObjectMethod(jDataset, getSparseVectors), line 143 -/
  | svArray
  /-- the per-element jobject from GetObjectArrayElement, line 157 -/
  | elemObj
  /-- the per-element jintArray from CallObjectMethod(jSV, getIds), line 160 -/
  | intArr
  /-- the per-element jfloatArray from CallObjectMethod(jSV, getValues), line 161 -/
  | floatArr
  /-- the stray local reference produced by CallObjectMethod(jSV, getDocId), line 162 -/
  | docIdObj
  /-- the pinned jint buffer from GetIntArrayElements, line 169 -/
  | pinInt
  /-- the pinned jfloat buffer from GetFloatArrayElements, line 170 -/
  | pinFloat
  /-- the pinned chars from GetStringUTFChars, line 126 -/
  | strChars
  /-- the result jobjectArray from NewObjectArray, line 218 (returned to the caller) -/
  | resultArr
  /-- a VsagSearchResult jobject from NewObject, line 226 -/
  | resultRec
deriving DecidableEq, BEq

/-- One acquire / release event recorded by the JNIEnv instrumentation;
`r` is the fresh handle number of the acquired view. -/
inductive REvent
  | acq (k : VKind) (r : Nat)
  | rel (k : VKind) (r : Nat)
deriving DecidableEq, BEq

/-- A managed VsagSparseVector record as observed through its accessors:
getLength ()I, getIds ()[I, getValues ()[F, getDocId ()J.  `values` holds the
32-bit float bit patterns. -/
structure JSparseVector where
  length : Int
  ids : List Int
  values : List Nat
  docId : Int
deriving DecidableEq

/-- The JNI environment state visible to this layer. -/
structure JEnv where
  /-- contents of the managed dataset's getSparseVectors() array -/
  vectors : List JSparseVector
  /-- the pending managed exception (class name, message), if any -/
  pending : Option (String × String)
  /-- fresh-handle counter for views/references handed out by the JNIEnv -/
  nextRef : Nat
  /-- chronological acquire/release instrumentation trace -/
  trace : List REvent
  /-- addresses of live heap boxes, each holding a shared_ptr to a native index -/
  boxes : List Int
  /-- allocation counter; box addresses are nextBox+1, hence nonzero -/
  nextBox : Nat
  /-- whether managed-array allocation (NewLongArray / NewObjectArray) succeeds -/
  allocOk : Bool
deriving DecidableEq

/-- A C++ exception in flight, by the handlers of
JNIUtil::CatchCppExceptionAndThrowJava (jni_util.cpp:85-102). -/
inductive CppExc
  /-- std::bad_alloc, msg = what() -/
  | badAlloc (msg : String)
  /-- std::runtime_error, msg = what() -/
  | runtimeError (msg : String)
  /-- any other std::exception, msg = what() -/
  | otherExc (msg : String)
  /-- a non-std::exception failure, catch (...) -/
  | nonStd
deriving DecidableEq

/-- The two descriptor caches of JNIUtil (jni_util.h:88-89); descriptors are
opaque Nat tokens. -/
structure JNIUtilState where
  cachedClasses : List (String × Nat)
  cachedMethods : List (String × Nat)
deriving DecidableEq

/-- A (non-null) managed jstring as observed through GetStringUTFChars:
`chars` is the extracted character data (none when extraction fails), and
`pendingExc` the managed exception a failed extraction leaves pending. -/
structure JStringV where
  chars : Option String
  pendingExc : Option (String × String)
deriving DecidableEq

/-- A native vsag::SparseVector as filled in by the decode loop
(jni_util.cpp:164-175): len_ : uint32_t, ids_ : uint32_t[], vals_ : float[]. -/
structure SparseVecCpp where
  len : Nat
  ids : List Nat
  vals : List Nat
deriving DecidableEq

/-- The native vsag::Dataset assembled at jni_util.cpp:186-187:
NumElements / SparseVectors / Ids / Owner(true). -/
structure CppDataset where
  numElements : Nat
  sparseVectors : List SparseVecCpp
  docIds : List Int
  owner : Bool
deriving DecidableEq

/-- A native result Dataset as consumed by ConvertCppSearchResultsToJava:
GetIds (int64_t*), GetDistances (32-bit float*, carried as bit patterns),
GetDim (int64_t). -/
structure CppResultDataset where
  ids : List Int
  distances : List Nat
  dim : Int
deriving DecidableEq

/-- A jfloat value, kept symbolic: either a 32-bit float brought over from the
native side (by its bit pattern), or the value of the C++ float expression
`1 - x` computed at jni_util.cpp:226.  static_cast of a float to jfloat
is the identity, so ofBits already is the narrowed 32-bit value. -/
inductive JFloat
  | ofBits (b : Nat)
  | oneMinus (x : JFloat)
deriving DecidableEq

/-- A managed VsagSearchResult record, constructed via the cached (JF)V
constructor. -/
structure VsagSearchResult where
  docId : Int
  score : JFloat
deriving DecidableEq

/-- External collaborators: the wrapped vsag library and the filesystem
(spec section 1: consumed only through their documented contract). -/
structure VsagOracle where
  factoryCreate : String → String → Except String Unit
  indexAdd : Int → CppDataset → Except String (List Int)
  indexKnnSearch : Int → CppDataset → Int → String → Except String CppResultDataset
  indexSerialize : Int → String → Except String Unit
  indexDeserialize : Int → String → Except String Unit
  fileOpenWrite : String → Bool
  fileOpenRead : String → Bool

/-- jni.h constant JNI_COMMIT. -/
def JNI_COMMIT : Int := 1

/-- jni.h constant JNI_ABORT. -/
def JNI_ABORT : Int := 2

/-- static_cast of a jint (signed 32-bit) to uint32_t (jni_util.cpp:173). -/
def uint32OfJint (x : Int) : Nat := (x % 4294967296).toNat

/-- static_cast of an int64_t to jsize (signed 32-bit, jni_util.cpp:215). -/
def jsizeOfInt64 (x : Int) : Int := (x + 2147483648) % 4294967296 - 2147483648

/-- Lookup in an unordered_map modelled as an association list. -/
def lookupMap (m : List (String × Nat)) (k : String) : Option Nat :=
  match m with
  | [] => none
  | p :: rest => if p.1 = k then some p.2 else lookupMap rest k

/-- Overwrite the ids array of managed sparse-vector record `i` (the managed
write-back that ReleaseIntArrayElements would perform in commit mode). -/
def writeVecIds (vs : List JSparseVector) (i : Nat) (buf : List Int) : List JSparseVector :=
  vs.set i { vs.getD i ⟨0, [], [], 0⟩ with ids := buf }

/-- Overwrite the values array of managed sparse-vector record `i`. -/
def writeVecVals (vs : List JSparseVector) (i : Nat) (buf : List Nat) : List JSparseVector :=
  vs.set i { vs.getD i ⟨0, [], [], 0⟩ with values := buf }

/-- The JNIEnv hands out a view/reference: a fresh handle is drawn and an
acquire event recorded. -/
def acquireView (k : VKind) (env : JEnv) : JEnv :=
  { env with nextRef := env.nextRef + 1,
             trace := env.trace ++ [REvent.acq k env.nextRef] }

/-- DeleteLocalRef / ReleaseStringUTFChars: a release event is recorded. -/
def releaseView (k : VKind) (r : Nat) (env : JEnv) : JEnv :=
  { env with trace := env.trace ++ [REvent.rel k r] }

/-- ReleaseIntArrayElements(jIds, idsElems, mode) on the ids array of managed
record `i`: in any mode other than JNI_ABORT the (possibly modified) buffer is
written back into the managed array; JNI_ABORT discards it. -/
def releaseIntArrayElements (i : Nat) (r : Nat) (buf : List Int) (mode : Int) (env : JEnv) : JEnv :=
  let env1 := if mode = JNI_ABORT then env
              else { env with vectors := writeVecIds env.vectors i buf }
  { env1 with trace := env1.trace ++ [REvent.rel VKind.pinInt r] }

/-- ReleaseFloatArrayElements(jValues, valsElems, mode), as above. -/
def releaseFloatArrayElements (i : Nat) (r : Nat) (buf : List Nat) (mode : Int) (env : JEnv) : JEnv :=
  let env1 := if mode = JNI_ABORT then env
              else { env with vectors := writeVecVals env.vectors i buf }
  { env1 with trace := env1.trace ++ [REvent.rel VKind.pinFloat r] }

/-- The class keys JNIUtil::Initialize registers (jni_util.cpp:24-55), in
registration order. -/
def initClassKeys : List String :=
  ["java/io/IOException",
   "java/lang/Exception",
   "org/opensearch/neuralsearch/jni/VsagSparseVector",
   "org/opensearch/neuralsearch/jni/VsagSearchResult",
   "org/opensearch/neuralsearch/jni/VsagDataset"]

/-- The method keys JNIUtil::Initialize registers (jni_util.cpp:39-53); a key
is className:methodName, as built by JNIUtil::FindMethod. -/
def initMethodKeys : List String :=
  ["org/opensearch/neuralsearch/jni/VsagSparseVector:getLength",
   "org/opensearch/neuralsearch/jni/VsagSparseVector:getIds",
   "org/opensearch/neuralsearch/jni/VsagSparseVector:getValues",
   "org/opensearch/neuralsearch/jni/VsagSparseVector:getDocId",
   "org/opensearch/neuralsearch/jni/VsagSearchResult:<init>",
   "org/opensearch/neuralsearch/jni/VsagDataset:getSparseVectors"]

/-- JNIUtil::Initialize (jni_util.cpp:24-55): populates both caches with
exactly the keys above; `f` and `g` stand for the JNIEnv's reflective
FindClass/GetMethodID results (opaque descriptors, global-ref creation not
modelled). -/
def InitializeCaches (f g : String → Nat) : JNIUtilState :=
  { cachedClasses := initClassKeys.map fun k => (k, f k),
    cachedMethods := initMethodKeys.map fun k => (k, g k) }

/-- JNIUtil::Uninitialize (jni_util.cpp:57-64): deletes the cached global refs
(no observable effect in this model) and clears both caches. -/
def UninitializeCaches (_u : JNIUtilState) : JNIUtilState :=
  { cachedClasses := [], cachedMethods := [] }

/-- JNIUtil::ThrowJavaException (jni_util.cpp:66-73): resolves `ty` directly
through the JNIEnv (not via the cache) and raises it with `message`.  The two
classes this layer ever raises are JDK core classes, so the resolution is
modelled as always succeeding (the NoClassDefFoundError fallback of line 72 is
unreachable in this model). -/
def ThrowJavaException (ty : String) (message : String) (env : JEnv) : JEnv :=
  { env with pending := some (ty, message) }

/-- JNIUtil::CatchCppExceptionAndThrowJava (jni_util.cpp:85-102): rethrows the
current C++ exception and dispatches on its type. -/
def CatchCppExceptionAndThrowJava (e : CppExc) (env : JEnv) : JEnv :=
  match e with
  | CppExc.badAlloc m => ThrowJavaException "java/io/IOException" m env
  | CppExc.runtimeError m => ThrowJavaException "java/lang/Exception" m env
  | CppExc.otherExc m => ThrowJavaException "java/lang/Exception" m env
  | CppExc.nonStd => ThrowJavaException "java/lang/Exception" "Unknown exception occurred" env

/-- The translation table exactly as the specification states it (spec 4.2):
allocation failure -> IO-category exception with the failure's message;
explicit runtime error / any other exception -> generic exception, message
preserved; non-exception failure -> generic exception, message
"Unknown exception occurred".  Defined from the spec's words, for comparison
with CatchCppExceptionAndThrowJava. -/
def translateSpec : CppExc → String × String
  | CppExc.badAlloc m => ("java/io/IOException", m)
  | CppExc.runtimeError m => ("java/lang/Exception", m)
  | CppExc.otherExc m => ("java/lang/Exception", m)
  | CppExc.nonStd => ("java/lang/Exception", "Unknown exception occurred")

/-- JNIUtil::FindClass (jni_util.cpp:104-110): pure cache lookup; a miss
throws std::runtime_error before any JNIEnv call (the env parameter of the
source function is never used). -/
def FindClass (u : JNIUtilState) (className : String) : Except CppExc Nat :=
  match lookupMap u.cachedClasses className with
  | none => Except.error (CppExc.runtimeError ("Unable to load class \"" ++ className ++ "\""))
  | some c => Except.ok c

/-- JNIUtil::FindMethod (jni_util.cpp:112-119): pure cache lookup on the
className:methodName key; a miss throws std::runtime_error before any JNIEnv
call. -/
def FindMethod (u : JNIUtilState) (className : String) (methodName : String) : Except CppExc Nat :=
  match lookupMap u.cachedMethods (className ++ ":" ++ methodName) with
  | none => Except.error (CppExc.runtimeError ("Unable to find \"" ++ methodName ++ "\" method"))
  | some m => Except.ok m

/-- JNIUtil::ConvertJavaStringToCppString (jni_util.cpp:121-136).
A null jstring is modelled as none.  GetStringUTFChars either pins the
character data (a strChars view, released by ReleaseStringUTFChars at line
134 before returning) or yields null, in which case HasExceptionInStack
rethrows if the JNIEnv has a pending exception, and line 131 throws the same
runtime_error otherwise.  std::string construction is modelled as total. -/
def ConvertJavaStringToCppString (js : Option JStringV) (env : JEnv) : Except CppExc String × JEnv :=
  match js with
  | none => (Except.error (CppExc.runtimeError "String cannot be null"), env)
  | some s =>
    match s.chars with
    | none =>
      let env1 : JEnv :=
        { env with pending := match s.pendingExc with
                              | some e => some e
                              | none => env.pending }
      if env1.pending.isSome then
        (Except.error (CppExc.runtimeError "Unable to convert java string to cpp string"), env1)
      else
        (Except.error (CppExc.runtimeError "Unable to convert java string to cpp string"), env1)
    | some str =>
      let r := env.nextRef
      let env1 := acquireView VKind.strChars env
      let env2 := releaseView VKind.strChars r env1
      (Except.ok str, env2)

/-- One iteration of the decode loop (jni_util.cpp:156-183) on element `i`.
Line 162 is translated faithfully: getDocId is registered with signature
"()J" (a long-returning method) but invoked through CallObjectMethod, which
materialises its result as a fresh local reference; the (jlong) cast then
yields that reference value, not the managed long.  The in-loop allocations
`new uint32_t[len]` / `new float[len]` (lines 165-166) deterministically
throw std::bad_array_new_length — a std::bad_alloc — when the managed length
is negative; on that exit the jSV/jIds/jValues/getDocId references acquired
at lines 157-162 are never released.  For a non-negative length the
allocations are modelled as succeeding (heap exhaustion is not modelled,
as with std::string construction in the string decoder).  Both pinned
buffers are released with JNI_ABORT (lines 177-178). -/
def decodeElem (i : Nat) (env : JEnv) : Except CppExc (SparseVecCpp × Int) × JEnv :=
  let v := env.vectors.getD i ⟨0, [], [], 0⟩
  let rSV := env.nextRef
  let env1 := acquireView VKind.elemObj env          -- GetObjectArrayElement, line 157
  let len : Int := v.length                          -- CallIntMethod getLength, line 159
  let rIds := env1.nextRef
  let env2 := acquireView VKind.intArr env1          -- CallObjectMethod getIds, line 160
  let rVals := env2.nextRef
  let env3 := acquireView VKind.floatArr env2        -- CallObjectMethod getValues, line 161
  let rDoc := env3.nextRef
  let env4 := acquireView VKind.docIdObj env3        -- CallObjectMethod getDocId, line 162
  let jDocId : Int := Int.ofNat rDoc                 -- (jlong) cast of the local reference
  if len < 0 then
    -- svVec[i].len_ = len narrows first (line 164); then new uint32_t[len]
    -- (line 165) throws std::bad_array_new_length for a negative length and
    -- the iteration's local references above leak
    (Except.error (CppExc.badAlloc "std::bad_array_new_length"), env4)
  else
    let rPinI := env4.nextRef
    let env5 := acquireView VKind.pinInt env4          -- GetIntArrayElements, line 169
    let idsElems := v.ids
    let rPinF := env5.nextRef
    let env6 := acquireView VKind.pinFloat env5        -- GetFloatArrayElements, line 170
    let valsElems := v.values
    let n := len.toNat                                 -- for (int j = 0; j < len; ++j)
    let cIds := (List.range n).map fun j => uint32OfJint (idsElems.getD j 0)
    let cVals := (List.range n).map fun j => valsElems.getD j 0
    let env7 := releaseIntArrayElements i rPinI idsElems JNI_ABORT env6     -- line 177
    let env8 := releaseFloatArrayElements i rPinF valsElems JNI_ABORT env7  -- line 178
    let env9 := releaseView VKind.elemObj rSV env8     -- DeleteLocalRef jSV, line 180
    let env10 := releaseView VKind.intArr rIds env9    -- DeleteLocalRef jIds, line 181
    let env11 := releaseView VKind.floatArr rVals env10 -- DeleteLocalRef jValues, line 182
    (Except.ok (⟨uint32OfJint len, cIds, cVals⟩, jDocId), env11)

/-- The decode loop over elements i, i+1, ..., running `n` iterations
(numElements is read once, before the loop); an exception thrown in an
iteration aborts the loop and propagates. -/
def decodeLoop (i n : Nat) (env : JEnv) : Except CppExc (List SparseVecCpp × List Int) × JEnv :=
  match n with
  | 0 => (Except.ok ([], []), env)
  | Nat.succ m =>
    match decodeElem i env with
    | (Except.error e, env1) => (Except.error e, env1)
    | (Except.ok p, env1) =>
      match decodeLoop (i + 1) m env1 with
      | (Except.error e, env2) => (Except.error e, env2)
      | (Except.ok q, env2) => (Except.ok (p.1 :: q.1, p.2 :: q.2), env2)

/-- JNIUtil::ConvertJavaDatasetToCppDatasetPtr (jni_util.cpp:138-189): cache
lookups in source order, then the sparse-vectors array is obtained (line 143,
a local reference that the function never deletes), its length read, the
loop run, and the native Dataset assembled with Owner(true). -/
def ConvertJavaDatasetToCppDatasetPtr (u : JNIUtilState) (env : JEnv) : Except CppExc CppDataset × JEnv :=
  match FindClass u "org/opensearch/neuralsearch/jni/VsagDataset" with
  | Except.error e => (Except.error e, env)
  | Except.ok _ =>
  match FindMethod u "org/opensearch/neuralsearch/jni/VsagDataset" "getSparseVectors" with
  | Except.error e => (Except.error e, env)
  | Except.ok _ =>
  let env1 := acquireView VKind.svArray env          -- CallObjectMethod getSparseVectors, line 143
  let numElements := env1.vectors.length             -- GetArrayLength, line 144
  match FindClass u "org/opensearch/neuralsearch/jni/VsagSparseVector" with
  | Except.error e => (Except.error e, env1)
  | Except.ok _ =>
  match FindMethod u "org/opensearch/neuralsearch/jni/VsagSparseVector" "getLength" with
  | Except.error e => (Except.error e, env1)
  | Except.ok _ =>
  match FindMethod u "org/opensearch/neuralsearch/jni/VsagSparseVector" "getIds" with
  | Except.error e => (Except.error e, env1)
  | Except.ok _ =>
  match FindMethod u "org/opensearch/neuralsearch/jni/VsagSparseVector" "getValues" with
  | Except.error e => (Except.error e, env1)
  | Except.ok _ =>
  match FindMethod u "org/opensearch/neuralsearch/jni/VsagSparseVector" "getDocId" with
  | Except.error e => (Except.error e, env1)
  | Except.ok _ =>
  match decodeLoop 0 numElements env1 with
  | (Except.error e, env2) => (Except.error e, env2)
  | (Except.ok q, env2) =>
    (Except.ok { numElements := numElements,
                 sparseVectors := q.1,
                 docIds := q.2,
                 owner := true }, env2)

/-- JNIUtil::ConvertCppLongArrayToJavaLongArray (jni_util.cpp:191-202):
NewLongArray, throwing std::bad_alloc on allocation failure, then one bulk
SetLongArrayRegion when non-empty. -/
def ConvertCppLongArrayToJavaLongArray (xs : List Int) (env : JEnv) : Except CppExc (List Int) × JEnv :=
  if env.allocOk then (Except.ok xs, env)
  else (Except.error (CppExc.badAlloc "std::bad_alloc"), env)

/-- The encode loop (jni_util.cpp:224-228): each iteration constructs one
VsagSearchResult via NewObject (a fresh local reference, never deleted) with
arguments static_cast<jlong>(ids[i]) and 1 - static_cast<jfloat>(distances[i]),
and stores it at index i. -/
def encodeLoop (ds : CppResultDataset) (i n : Nat) (env : JEnv) : List VsagSearchResult × JEnv :=
  match n with
  | 0 => ([], env)
  | Nat.succ m =>
    let env1 := acquireView VKind.resultRec env
    let res : VsagSearchResult :=
      ⟨ds.ids.getD i 0, JFloat.oneMinus (JFloat.ofBits (ds.distances.getD i 0))⟩
    let q := encodeLoop ds (i + 1) m env1
    (res :: q.1, q.2)

/-- JNIUtil::ConvertCppSearchResultsToJava (jni_util.cpp:204-232): cache
lookups, numResults = static_cast<jsize>(GetDim()), NewObjectArray (which
cannot produce an array of negative jsize; other allocation failure is the
env's allocOk flag), then the encode loop. -/
def ConvertCppSearchResultsToJava (u : JNIUtilState) (ds : CppResultDataset) (env : JEnv) :
    Except CppExc (List VsagSearchResult) × JEnv :=
  match FindClass u "org/opensearch/neuralsearch/jni/VsagSearchResult" with
  | Except.error e => (Except.error e, env)
  | Except.ok _ =>
  match FindMethod u "org/opensearch/neuralsearch/jni/VsagSearchResult" "<init>" with
  | Except.error e => (Except.error e, env)
  | Except.ok _ =>
  let numResults : Int := jsizeOfInt64 ds.dim
  if numResults < 0 ∨ env.allocOk = false then
    (Except.error (CppExc.runtimeError "Failed to allocate VsagSearchResult array"), env)
  else
    let env1 := acquireView VKind.resultArr env      -- NewObjectArray, line 218
    let q := encodeLoop ds 0 numResults.toNat env1
    (Except.ok q.1, q.2)

/-- GetIndexPtr (NativeVsagService.cpp:37-43): reinterprets the handle; the
null check only catches the zero sentinel. -/
def GetIndexPtr (h : Int) : Except CppExc Int :=
  if h = 0 then Except.error (CppExc.runtimeError "Invalid native index pointer (nullptr)")
  else Except.ok h

/-- Body of Java_..._createIndex (NativeVsagService.cpp:58-71): decode both
strings, call the factory, then box the shared_ptr on the heap; the returned
handle is the box address nextBox+1 (never zero). -/
def createIndexBody (o : VsagOracle) (jIndexType jBuildParams : Option JStringV) (env : JEnv) :
    Except CppExc Int × JEnv :=
  match ConvertJavaStringToCppString jIndexType env with
  | (Except.error e, env1) => (Except.error e, env1)
  | (Except.ok indexType, env1) =>
  match ConvertJavaStringToCppString jBuildParams env1 with
  | (Except.error e, env2) => (Except.error e, env2)
  | (Except.ok buildParams, env2) =>
  match o.factoryCreate indexType buildParams with
  | Except.error m =>
      (Except.error (CppExc.runtimeError ("Failed to create the index using vsag lib. Error: " ++ m)), env2)
  | Except.ok _ =>
      let addr : Int := Int.ofNat env2.nextBox + 1
      (Except.ok addr, { env2 with nextBox := env2.nextBox + 1, boxes := env2.boxes ++ [addr] })

/-- Java_..._createIndex (NativeVsagService.cpp:56-76): single catch-all
boundary; on any failure the exception is translated and jlong(0) returned. -/
def createIndexJNI (o : VsagOracle) (jIndexType jBuildParams : Option JStringV) (env : JEnv) :
    Int × JEnv :=
  match createIndexBody o jIndexType jBuildParams env with
  | (Except.ok v, env1) => (v, env1)
  | (Except.error e, env1) => (0, CatchCppExceptionAndThrowJava e env1)

/-- Body of Java_..._add (NativeVsagService.cpp:86-100). -/
def addBody (o : VsagOracle) (u : JNIUtilState) (jIndexPtr : Int) (env : JEnv) :
    Except CppExc (List Int) × JEnv :=
  match GetIndexPtr jIndexPtr with
  | Except.error e => (Except.error e, env)
  | Except.ok p =>
  match ConvertJavaDatasetToCppDatasetPtr u env with
  | (Except.error e, env1) => (Except.error e, env1)
  | (Except.ok dsPtr, env1) =>
  match o.indexAdd p dsPtr with
  | Except.error m => (Except.error (CppExc.runtimeError ("vsag::Index::Add failed: " ++ m)), env1)
  | Except.ok failedIds => ConvertCppLongArrayToJavaLongArray failedIds env1

/-- Java_..._add (NativeVsagService.cpp:83-105): catch-all boundary, sentinel
nullptr (none). -/
def addJNI (o : VsagOracle) (u : JNIUtilState) (jIndexPtr : Int) (env : JEnv) :
    Option (List Int) × JEnv :=
  match addBody o u jIndexPtr env with
  | (Except.ok v, env1) => (some v, env1)
  | (Except.error e, env1) => (none, CatchCppExceptionAndThrowJava e env1)

/-- Body of Java_..._knnSearch (NativeVsagService.cpp:116-136); note the
source passes the raw jint jk to KnnSearch. -/
def knnSearchBody (o : VsagOracle) (u : JNIUtilState) (jIndexPtr : Int) (jk : Int)
    (jSearchParams : Option JStringV) (env : JEnv) :
    Except CppExc (List VsagSearchResult) × JEnv :=
  match GetIndexPtr jIndexPtr with
  | Except.error e => (Except.error e, env)
  | Except.ok p =>
  match ConvertJavaDatasetToCppDatasetPtr u env with
  | (Except.error e, env1) => (Except.error e, env1)
  | (Except.ok dsPtr, env1) =>
  match ConvertJavaStringToCppString jSearchParams env1 with
  | (Except.error e, env2) => (Except.error e, env2)
  | (Except.ok searchParams, env2) =>
  match o.indexKnnSearch p dsPtr jk searchParams with
  | Except.error m =>
      (Except.error (CppExc.runtimeError ("vsag::Index::KnnSearch failed: " ++ m)), env2)
  | Except.ok results => ConvertCppSearchResultsToJava u results env2

/-- Java_..._knnSearch (NativeVsagService.cpp:113-142): catch-all boundary,
sentinel nullptr (none). -/
def knnSearchJNI (o : VsagOracle) (u : JNIUtilState) (jIndexPtr : Int) (jk : Int)
    (jSearchParams : Option JStringV) (env : JEnv) :
    Option (List VsagSearchResult) × JEnv :=
  match knnSearchBody o u jIndexPtr jk jSearchParams env with
  | (Except.ok v, env1) => (some v, env1)
  | (Except.error e, env1) => (none, CatchCppExceptionAndThrowJava e env1)

/-- Body of Java_..._serializeIndex (NativeVsagService.cpp:152-166). -/
def serializeIndexBody (o : VsagOracle) (jIndexPtr : Int) (jFilePath : Option JStringV)
    (env : JEnv) : Except CppExc Unit × JEnv :=
  match GetIndexPtr jIndexPtr with
  | Except.error e => (Except.error e, env)
  | Except.ok p =>
  match ConvertJavaStringToCppString jFilePath env with
  | (Except.error e, env1) => (Except.error e, env1)
  | (Except.ok filePath, env1) =>
  if o.fileOpenWrite filePath = false then
    (Except.error (CppExc.runtimeError ("Failed to open file for writing: " ++ filePath)), env1)
  else
    match o.indexSerialize p filePath with
    | Except.error m =>
        (Except.error (CppExc.runtimeError ("Index serialization failed: " ++ m)), env1)
    | Except.ok _ => (Except.ok (), env1)

/-- Java_..._serializeIndex (NativeVsagService.cpp:149-171): catch-all
boundary around a void operation. -/
def serializeIndexJNI (o : VsagOracle) (jIndexPtr : Int) (jFilePath : Option JStringV)
    (env : JEnv) : Unit × JEnv :=
  match serializeIndexBody o jIndexPtr jFilePath env with
  | (Except.ok _, env1) => ((), env1)
  | (Except.error e, env1) => ((), CatchCppExceptionAndThrowJava e env1)

/-- Body of Java_..._deserializeIndex (NativeVsagService.cpp:180-196). -/
def deserializeIndexBody (o : VsagOracle) (jIndexPtr : Int) (jFilePath : Option JStringV)
    (env : JEnv) : Except CppExc Unit × JEnv :=
  match GetIndexPtr jIndexPtr with
  | Except.error e => (Except.error e, env)
  | Except.ok p =>
  match ConvertJavaStringToCppString jFilePath env with
  | (Except.error e, env1) => (Except.error e, env1)
  | (Except.ok filePath, env1) =>
  if o.fileOpenRead filePath = false then
    (Except.error (CppExc.runtimeError ("Failed to open file for reading: " ++ filePath)), env1)
  else
    match o.indexDeserialize p filePath with
    | Except.error m =>
        (Except.error (CppExc.runtimeError ("Index deserialization failed: " ++ m)), env1)
    | Except.ok _ => (Except.ok (), env1)

/-- Java_..._deserializeIndex (NativeVsagService.cpp:178-200): catch-all
boundary around a void operation. -/
def deserializeIndexJNI (o : VsagOracle) (jIndexPtr : Int) (jFilePath : Option JStringV)
    (env : JEnv) : Unit × JEnv :=
  match deserializeIndexBody o jIndexPtr jFilePath env with
  | (Except.ok _, env1) => ((), env1)
  | (Except.error e, env1) => ((), CatchCppExceptionAndThrowJava e env1)

/-- Body of Java_..._cleanup (NativeVsagService.cpp:209-223): zero handle is
a no-op; otherwise the heap box holding the shared_ptr is deleted. -/
def cleanupBody (jIndexPtr : Int) (env : JEnv) : Except CppExc Unit × JEnv :=
  if jIndexPtr = 0 then (Except.ok (), env)
  else (Except.ok (), { env with boxes := env.boxes.erase jIndexPtr })

/-- Java_..._cleanup (NativeVsagService.cpp:207-228): catch-all boundary
around a void operation. -/
def cleanupJNI (jIndexPtr : Int) (env : JEnv) : Unit × JEnv :=
  match cleanupBody jIndexPtr env with
  | (Except.ok _, env1) => ((), env1)
  | (Except.error e, env1) => ((), CatchCppExceptionAndThrowJava e env1)

/- ------------------------------------------------------------------ -/
/- Derived trace descriptions used in the resource-discipline claims. -/
/- ------------------------------------------------------------------ -/

/-- The event sequence of one decode-loop iteration whose first fresh handle
is `r` (see decodeElem). -/
def elemTrace (r : Nat) : List REvent :=
  [REvent.acq VKind.elemObj r,
   REvent.acq VKind.intArr (r + 1),
   REvent.acq VKind.floatArr (r + 2),
   REvent.acq VKind.docIdObj (r + 3),
   REvent.acq VKind.pinInt (r + 4),
   REvent.acq VKind.pinFloat (r + 5),
   REvent.rel VKind.pinInt (r + 4),
   REvent.rel VKind.pinFloat (r + 5),
   REvent.rel VKind.elemObj r,
   REvent.rel VKind.intArr (r + 1),
   REvent.rel VKind.floatArr (r + 2)]

/-- The event sequence of a decode-loop iteration that aborts on the
std::bad_array_new_length throw of `new uint32_t[len]` with a negative
managed length (jni_util.cpp:165): only the four references of lines 157-162
were acquired, and none of them is released. -/
def elemTraceFail (r : Nat) : List REvent :=
  [REvent.acq VKind.elemObj r,
   REvent.acq VKind.intArr (r + 1),
   REvent.acq VKind.floatArr (r + 2),
   REvent.acq VKind.docIdObj (r + 3)]

/-- The per-iteration event chunks of a decode over the elements of `vs`
starting at index `i`, running `n` iterations from fresh handle `r`: an
element with a non-negative length contributes a completed chunk
(elemTrace), an element with a negative length contributes the aborting
chunk (elemTraceFail) and ends the loop. -/
def decodeChunksOf : List JSparseVector → Nat → Nat → Nat → List (List REvent)
  | _, _, 0, _ => []
  | vs, i, Nat.succ m, r =>
    if (vs.getD i ⟨0, [], [], 0⟩).length < 0 then [elemTraceFail r]
    else elemTrace r :: decodeChunksOf vs (i + 1) m (r + 6)

/-- The NewObject acquisitions of an n-iteration encode loop starting at
fresh handle `r`. -/
def encodeRecAcqs : Nat → Nat → List REvent
  | 0, _ => []
  | Nat.succ m, r => REvent.acq VKind.resultRec r :: encodeRecAcqs m (r + 1)

/-- The events ConvertCppSearchResultsToJava appends, given the dataset, the
first fresh handle and the allocOk flag. -/
def encodeTraceOf (ds : CppResultDataset) (r : Nat) (ok : Bool) : List REvent :=
  if jsizeOfInt64 ds.dim < 0 ∨ ok = false then []
  else REvent.acq VKind.resultArr r :: encodeRecAcqs (jsizeOfInt64 ds.dim).toNat (r + 1)

/-- The events ConvertJavaStringToCppString appends. -/
def strTraceOf (js : Option JStringV) (r : Nat) : List REvent :=
  match js with
  | some s =>
    (match s.chars with
     | some _ => [REvent.acq VKind.strChars r, REvent.rel VKind.strChars r]
     | none => [])
  | none => []

/-- Whether a view kind is a transient managed-side array or string view in
the sense of the specification's resource discipline (spec section 5).  Local
references to plain objects (elemObj, docIdObj, resultRec) are not array or
string views; the result array (resultArr) is returned to the caller, hence
not transient. -/
def arrayView : VKind → Bool
  | VKind.svArray => true
  | VKind.intArr => true
  | VKind.floatArr => true
  | VKind.pinInt => true
  | VKind.pinFloat => true
  | VKind.strChars => true
  | VKind.elemObj => false
  | VKind.docIdObj => false
  | VKind.resultArr => false
  | VKind.resultRec => false

/-- Boolean form of the claim "every transient managed-side array or string
view acquired is released" over a trace: each acquire of an array/string-view
kind has a matching release somewhere in the trace. -/
def allViewsReleasedB (t : List REvent) : Bool :=
  t.all fun e =>
    match e with
    | REvent.acq k r => !(arrayView k) || t.contains (REvent.rel k r)
    | REvent.rel _ _ => true

/-- The result-record list the specification's encode description produces,
defined from the spec's words (spec 4.4 Encode): for each index construct one
record with identifier unchanged and score = 1 - distance. -/
def specResultsFrom (ds : CppResultDataset) (i n : Nat) : List VsagSearchResult :=
  match n with
  | 0 => []
  | Nat.succ m =>
    ⟨ds.ids.getD i 0, JFloat.oneMinus (JFloat.ofBits (ds.distances.getD i 0))⟩
      :: specResultsFrom ds (i + 1) m

/-- The whole spec-side encode result. -/
def specSearchResults (ds : CppResultDataset) : List VsagSearchResult :=
  specResultsFrom ds 0 ds.dim.toNat

/- ----------------------------------------------- -/
/- Concrete data used by witnesses and evaluations. -/
/- ----------------------------------------------- -/

/-- A fixed reflective class-descriptor assignment. -/
def f0 : String → Nat := fun _ => 0

/-- A fixed method-descriptor assignment. -/
def g0 : String → Nat := fun _ => 0

/-- The caches right after JNI_OnLoad has run Initialize. -/
def util0 : JNIUtilState := InitializeCaches f0 g0

/-- An empty JNI environment. -/
def env0 : JEnv := ⟨[], none, 0, [], [], 0, true⟩

/-- Environment holding one managed sparse vector:
length 1, ids [-1], values [bits of 0.5f], docId 5. -/
def envC1a : JEnv := ⟨[⟨1, [-1], [1056964608], 5⟩], none, 0, [], [], 0, true⟩

/-- Same managed dataset except docId 7. -/
def envC1b : JEnv := ⟨[⟨1, [-1], [1056964608], 7⟩], none, 0, [], [], 0, true⟩

/-- Environment holding one managed sparse vector whose getLength() returns
-1: decoding it hits the std::bad_array_new_length throw of
`new uint32_t[len]` (jni_util.cpp:165). -/
def envC4neg : JEnv := ⟨[⟨-1, [], [], 0⟩], none, 0, [], [], 0, true⟩

/-- An oracle whose library calls all succeed. -/
def oracle0 : VsagOracle :=
  { factoryCreate := fun _ _ => Except.ok (),
    indexAdd := fun _ _ => Except.ok [],
    indexKnnSearch := fun _ _ _ _ => Except.ok ⟨[], [], 0⟩,
    indexSerialize := fun _ _ => Except.ok (),
    indexDeserialize := fun _ _ => Except.ok (),
    fileOpenWrite := fun _ => true,
    fileOpenRead := fun _ => true }

/-- A non-null jstring with contents "hnsw". -/
def jsHnsw : Option JStringV := some ⟨some "hnsw", none⟩

/-- A non-null jstring with contents "p". -/
def jsParams : Option JStringV := some ⟨some "p", none⟩

/-- The environment right after createIndexJNI oracle0 jsHnsw jsParams env0. -/
def envAfterCreate : JEnv :=
  ⟨[], none, 2,
   [REvent.acq VKind.strChars 0, REvent.rel VKind.strChars 0,
    REvent.acq VKind.strChars 1, REvent.rel VKind.strChars 1],
   [1], 1, true⟩

/-- A concrete native result dataset: ids [10, 11], distance bit patterns
[7, 9], dim 2. -/
def dsW : CppResultDataset := ⟨[10, 11], [7, 9], 2⟩

/- -------------------- -/
/- Theorems and lemmas. -/
/- -------------------- -/

/-- Helper: CatchCppExceptionAndThrowJava leaves exactly the spec table's
(class, message) pair pending. -/
theorem catch_sets_pending (e : CppExc) (env : JEnv) :
    (CatchCppExceptionAndThrowJava e env).pending = some (translateSpec e) := by
  cases e <;> rfl

/-- Helper: a key not in the registered key list is absent from the built
cache. -/
theorem lookupMap_map_of_not_mem (f : String → Nat) (ks : List String) (c : String)
    (hc : c ∉ ks) : lookupMap (ks.map fun k => (k, f k)) c = none := by
  induction ks with
  | nil => rfl
  | cons k t ih =>
    rw [List.mem_cons] at hc
    push_neg at hc
    simp only [List.map_cons, lookupMap]
    rw [if_neg (fun h => hc.1 h.symm), ih hc.2]

/-- Claim C3: for every caught failure, the exception translator maps it by
exactly the spec's table: allocation failure (std::bad_alloc) raises the
IO-category exception (java/io/IOException) with the failure's message;
an explicit runtime error raises the generic exception (java/lang/Exception)
with the message preserved; any other exception likewise; a non-exception
failure raises the generic exception with message
"Unknown exception occurred". -/
theorem c3_exception_translation_table :
    ∀ (e : CppExc) (env : JEnv),
      (CatchCppExceptionAndThrowJava e env).pending = some (translateSpec e) := by
  intro e env
  exact catch_sets_pending e env

/-- Claim C10: Uninitialize clears both the class cache and the method cache,
so afterwards every FindClass and every FindMethod call fails with the lookup
error, including for keys Initialize had registered. -/
theorem c10_uninit_clears_caches :
    ∀ (u : JNIUtilState) (c cm mm : String),
      FindClass (UninitializeCaches u) c
        = Except.error (CppExc.runtimeError ("Unable to load class \"" ++ c ++ "\""))
      ∧ FindMethod (UninitializeCaches u) cm mm
        = Except.error (CppExc.runtimeError ("Unable to find \"" ++ mm ++ "\" method")) := by
  intro u c cm mm
  exact ⟨rfl, rfl⟩

/-- Claim C8: a FindClass/FindMethod lookup for a key never registered during
Initialize fails with the lookup error (a pure cache miss: the embedded
lookups make no JNIEnv call at all, so no native call and no dynamic
reflection is attempted — the source functions never use their env
parameter); a lookup for a registered key returns the cached descriptor. -/
theorem c8_cache_lookup :
    ∀ (f g : String → Nat) (c cm mm : String),
      (c ∉ initClassKeys →
        FindClass (InitializeCaches f g) c
          = Except.error (CppExc.runtimeError ("Unable to load class \"" ++ c ++ "\"")))
      ∧ (cm ++ ":" ++ mm ∉ initMethodKeys →
        FindMethod (InitializeCaches f g) cm mm
          = Except.error (CppExc.runtimeError ("Unable to find \"" ++ mm ++ "\" method")))
      ∧ (c ∈ initClassKeys → FindClass (InitializeCaches f g) c = Except.ok (f c))
      ∧ (cm ++ ":" ++ mm ∈ initMethodKeys →
        FindMethod (InitializeCaches f g) cm mm = Except.ok (g (cm ++ ":" ++ mm))) := by
  intro f g c cm mm
  refine ⟨?_, ?_, ?_, ?_⟩
  · intro hc
    simp only [FindClass, InitializeCaches]
    rw [lookupMap_map_of_not_mem f initClassKeys c hc]
  · intro hm
    simp only [FindMethod, InitializeCaches]
    rw [lookupMap_map_of_not_mem g initMethodKeys _ hm]
  · intro hc
    simp only [initClassKeys, List.mem_cons, List.not_mem_nil, or_false] at hc
    rcases hc with rfl|rfl|rfl|rfl|rfl <;> rfl
  · intro hm
    simp only [initMethodKeys, List.mem_cons, List.not_mem_nil, or_false] at hm
    simp only [FindMethod, InitializeCaches]
    rcases hm with h|h|h|h|h|h <;> rw [h] <;> rfl

/-- Witness for C8: "java/util/ArrayList" was never registered and fails;
"java/io/IOException" and VsagDataset:getSparseVectors were registered and
return the cached descriptors. -/
theorem c8_witness :
    FindClass util0 "java/util/ArrayList"
        = Except.error (CppExc.runtimeError ("Unable to load class \"" ++ "java/util/ArrayList" ++ "\""))
    ∧ FindMethod util0 "org/opensearch/neuralsearch/jni/VsagDataset" "addVectors"
        = Except.error (CppExc.runtimeError ("Unable to find \"" ++ "addVectors" ++ "\" method"))
    ∧ FindClass util0 "java/io/IOException" = Except.ok (f0 "java/io/IOException")
    ∧ FindMethod util0 "org/opensearch/neuralsearch/jni/VsagDataset" "getSparseVectors"
        = Except.ok (g0 ("org/opensearch/neuralsearch/jni/VsagDataset" ++ ":" ++ "getSparseVectors")) := by
  have h1 := c8_cache_lookup f0 g0 "java/util/ArrayList"
    "org/opensearch/neuralsearch/jni/VsagDataset" "addVectors"
  have h2 := c8_cache_lookup f0 g0 "java/io/IOException"
    "org/opensearch/neuralsearch/jni/VsagDataset" "getSparseVectors"
  exact ⟨h1.1 (by decide), h1.2.1 (by decide), h2.2.2.1 (by decide), h2.2.2.2 (by decide)⟩

/-- Claim C1 (code bug, evaluated at the failing input): decoding a managed
dataset whose single vector is (length 1, ids [-1], values [bits of 0.5f],
docId 5) narrows the subscript to 4294967295 and copies the weight bits
unchanged, but the native identifier is 4 — the fresh local-reference value
produced by calling CallObjectMethod on the long-returning getDocId ("()J")
and casting the jobject to jlong (jni_util.cpp:162) — not the managed docId.
Changing the managed docId to 7 leaves the decoded identifier unchanged, and
the decoded identifiers do not equal [5]. -/
theorem c1_identifier_not_preserved :
    (ConvertJavaDatasetToCppDatasetPtr util0 envC1a).1
      = Except.ok ⟨1, [⟨1, [4294967295], [1056964608]⟩], [4], true⟩
    ∧ (ConvertJavaDatasetToCppDatasetPtr util0 envC1b).1
      = Except.ok ⟨1, [⟨1, [4294967295], [1056964608]⟩], [4], true⟩
    ∧ decide ((ConvertJavaDatasetToCppDatasetPtr util0 envC1a).1.toOption.map CppDataset.docIds
        = some [5]) = false
    ∧ decide ((ConvertJavaDatasetToCppDatasetPtr util0 envC1b).1.toOption.map CppDataset.docIds
        = some [7]) = false := by
  exact ⟨rfl, rfl, rfl, rfl⟩

/-- Claim C7: DecodeText fails on a null input with the null-input validation
failure ("String cannot be null"); when extraction yields no data while no
managed exception is pending it fails with the defensive RuntimeError; and on
every path on which a string view was acquired, that view is released before
returning (the appended trace pairs every strChars acquire with its
release). -/
theorem c7_string_decode :
    ∀ (env : JEnv) (s : JStringV) (js : Option JStringV),
      ConvertJavaStringToCppString none env
        = (Except.error (CppExc.runtimeError "String cannot be null"), env)
      ∧ (s.chars = none → s.pendingExc = none → env.pending = none →
          ConvertJavaStringToCppString (some s) env
            = (Except.error (CppExc.runtimeError "Unable to convert java string to cpp string"), env))
      ∧ ((ConvertJavaStringToCppString js env).2.trace = env.trace ++ strTraceOf js env.nextRef)
      ∧ (∀ r, REvent.acq VKind.strChars r ∈ strTraceOf js env.nextRef →
          REvent.rel VKind.strChars r ∈ strTraceOf js env.nextRef) := by
  intro env s js
  refine ⟨rfl, ?_, ?_, ?_⟩
  · intro h1 h2 h3
    obtain ⟨vec, pend, nr, tr, bx, nb, al⟩ := env
    simp only at h3
    subst h3
    simp [ConvertJavaStringToCppString, h1, h2]
  · rcases js with _|s2
    · simp [ConvertJavaStringToCppString, strTraceOf]
    · rcases h : s2.chars with _|str
      · simp [ConvertJavaStringToCppString, strTraceOf, h]
      · simp [ConvertJavaStringToCppString, strTraceOf, h, acquireView, releaseView,
              List.append_assoc]
  · rcases js with _|s2
    · intro r hr; simp [strTraceOf] at hr
    · rcases h : s2.chars with _|str
      · intro r hr; simp [strTraceOf, h] at hr
      · intro r hr
        simp [strTraceOf, h] at hr ⊢
        exact hr

/-- Witness for C7: the null string fails with the null-input error on the
empty environment; a non-null string with failed extraction and nothing
pending fails with the defensive RuntimeError; decoding "hnsw" appends a
paired acquire/release of the string view, whose release is in the trace. -/
theorem c7_witness :
    ConvertJavaStringToCppString none env0
      = (Except.error (CppExc.runtimeError "String cannot be null"), env0)
    ∧ ConvertJavaStringToCppString (some ⟨none, none⟩) env0
      = (Except.error (CppExc.runtimeError "Unable to convert java string to cpp string"), env0)
    ∧ (ConvertJavaStringToCppString jsHnsw env0).2.trace
      = env0.trace ++ strTraceOf jsHnsw env0.nextRef
    ∧ REvent.rel VKind.strChars 0 ∈ strTraceOf jsHnsw 0 := by
  have h := c7_string_decode env0 ⟨none, none⟩ jsHnsw
  exact ⟨h.1, h.2.1 rfl rfl rfl, h.2.2.1, h.2.2.2 0 (by simp [jsHnsw, strTraceOf, env0])⟩

/-- Helper: the dataset-class lookup right after Initialize succeeds. -/
theorem findClass_dataset (f g : String → Nat) :
    FindClass (InitializeCaches f g) "org/opensearch/neuralsearch/jni/VsagDataset"
      = Except.ok (f "org/opensearch/neuralsearch/jni/VsagDataset") := rfl

/-- Helper: the getSparseVectors lookup right after Initialize succeeds. -/
theorem findMethod_getSparseVectors (f g : String → Nat) :
    FindMethod (InitializeCaches f g) "org/opensearch/neuralsearch/jni/VsagDataset" "getSparseVectors"
      = Except.ok (g "org/opensearch/neuralsearch/jni/VsagDataset:getSparseVectors") := rfl

/-- Helper: the sparse-vector-class lookup right after Initialize succeeds. -/
theorem findClass_sv (f g : String → Nat) :
    FindClass (InitializeCaches f g) "org/opensearch/neuralsearch/jni/VsagSparseVector"
      = Except.ok (f "org/opensearch/neuralsearch/jni/VsagSparseVector") := rfl

/-- Helper: the getLength lookup right after Initialize succeeds. -/
theorem findMethod_getLength (f g : String → Nat) :
    FindMethod (InitializeCaches f g) "org/opensearch/neuralsearch/jni/VsagSparseVector" "getLength"
      = Except.ok (g "org/opensearch/neuralsearch/jni/VsagSparseVector:getLength") := rfl

/-- Helper: the getIds lookup right after Initialize succeeds. -/
theorem findMethod_getIds (f g : String → Nat) :
    FindMethod (InitializeCaches f g) "org/opensearch/neuralsearch/jni/VsagSparseVector" "getIds"
      = Except.ok (g "org/opensearch/neuralsearch/jni/VsagSparseVector:getIds") := rfl

/-- Helper: the getValues lookup right after Initialize succeeds. -/
theorem findMethod_getValues (f g : String → Nat) :
    FindMethod (InitializeCaches f g) "org/opensearch/neuralsearch/jni/VsagSparseVector" "getValues"
      = Except.ok (g "org/opensearch/neuralsearch/jni/VsagSparseVector:getValues") := rfl

/-- Helper: the getDocId lookup right after Initialize succeeds. -/
theorem findMethod_getDocId (f g : String → Nat) :
    FindMethod (InitializeCaches f g) "org/opensearch/neuralsearch/jni/VsagSparseVector" "getDocId"
      = Except.ok (g "org/opensearch/neuralsearch/jni/VsagSparseVector:getDocId") := rfl

/-- Helper: the result-class lookup right after Initialize succeeds. -/
theorem findClass_searchResult (f g : String → Nat) :
    FindClass (InitializeCaches f g) "org/opensearch/neuralsearch/jni/VsagSearchResult"
      = Except.ok (f "org/opensearch/neuralsearch/jni/VsagSearchResult") := rfl

/-- Helper: the result-constructor lookup right after Initialize succeeds. -/
theorem findMethod_resultCtor (f g : String → Nat) :
    FindMethod (InitializeCaches f g) "org/opensearch/neuralsearch/jni/VsagSearchResult" "<init>"
      = Except.ok (g "org/opensearch/neuralsearch/jni/VsagSearchResult:<init>") := rfl

/-- Helper: a decode iteration on an element with a negative length aborts
with std::bad_array_new_length, having appended exactly the four unreleased
acquisitions of elemTraceFail. -/
theorem decodeElem_neg (i : Nat) (env : JEnv)
    (h : (env.vectors.getD i ⟨0, [], [], 0⟩).length < 0) :
    decodeElem i env
      = (Except.error (CppExc.badAlloc "std::bad_array_new_length"),
         { env with nextRef := env.nextRef + 4,
                    trace := env.trace ++ elemTraceFail env.nextRef }) := by
  have h2 : ((env.vectors[i]?).getD ⟨0, [], [], 0⟩).length < 0 := by simpa using h
  simp [decodeElem, h2, acquireView, elemTraceFail, List.append_assoc]

/-- Helper: a decode iteration on an element with a non-negative length
completes, advancing the fresh-handle counter by 6 and appending exactly the
elemTrace events; the decoded identifier is the local-reference value of the
getDocId call (handle nextRef+3), not the managed docId. -/
theorem decodeElem_nonneg (i : Nat) (env : JEnv)
    (h : ¬ (env.vectors.getD i ⟨0, [], [], 0⟩).length < 0) :
    decodeElem i env
      = (Except.ok
          (⟨uint32OfJint (env.vectors.getD i ⟨0, [], [], 0⟩).length,
            (List.range (env.vectors.getD i ⟨0, [], [], 0⟩).length.toNat).map
              (fun j => uint32OfJint ((env.vectors.getD i ⟨0, [], [], 0⟩).ids.getD j 0)),
            (List.range (env.vectors.getD i ⟨0, [], [], 0⟩).length.toNat).map
              (fun j => (env.vectors.getD i ⟨0, [], [], 0⟩).values.getD j 0)⟩,
           Int.ofNat (env.nextRef + 3)),
         { env with nextRef := env.nextRef + 6,
                    trace := env.trace ++ elemTrace env.nextRef }) := by
  have h2 : ¬ ((env.vectors[i]?).getD ⟨0, [], [], 0⟩).length < 0 := by simpa using h
  simp [decodeElem, h2, acquireView, releaseView, releaseIntArrayElements,
        releaseFloatArrayElements, JNI_ABORT, elemTrace, List.append_assoc]
  omega

/-- Helper: one decode iteration never writes managed state, on the
completing path (JNI_ABORT release of both pinned buffers, no managed write)
and on the aborting path alike. -/
theorem decodeElem_preserves (i : Nat) (env : JEnv) :
    (decodeElem i env).2.vectors = env.vectors
    ∧ (decodeElem i env).2.pending = env.pending := by
  by_cases h : (env.vectors.getD i ⟨0, [], [], 0⟩).length < 0
  · rw [decodeElem_neg i env h]
    exact ⟨rfl, rfl⟩
  · rw [decodeElem_nonneg i env h]
    exact ⟨rfl, rfl⟩

/-- Helper: the decode loop never writes managed state, whether it completes
or aborts. -/
theorem decodeLoop_preserves : ∀ (n i : Nat) (env : JEnv),
    (decodeLoop i n env).2.vectors = env.vectors
    ∧ (decodeLoop i n env).2.pending = env.pending := by
  intro n
  induction n with
  | zero => intro i env; exact ⟨rfl, rfl⟩
  | succ m ih =>
    intro i env
    have hp := decodeElem_preserves i env
    rcases hde : decodeElem i env with ⟨res, env1⟩
    rw [hde] at hp
    rcases res with e|p
    · simp only [decodeLoop, hde]
      exact hp
    · have hp2 := ih (i + 1) env1
      rcases hq : decodeLoop (i + 1) m env1 with ⟨rq, env2⟩
      rw [hq] at hp2
      rcases rq with e|q
      · simp only [decodeLoop, hde, hq]
        exact ⟨hp2.1.trans hp.1, hp2.2.trans hp.2⟩
      · simp only [decodeLoop, hde, hq]
        exact ⟨hp2.1.trans hp.1, hp2.2.trans hp.2⟩

/-- Helper: the decode loop's trace in closed form — one chunk per iteration,
a completed chunk for a non-negative length, the aborting four-acquire chunk
for a negative length. -/
theorem decodeLoop_trace : ∀ (n i : Nat) (env : JEnv),
    (decodeLoop i n env).2.trace
      = env.trace ++ (decodeChunksOf env.vectors i n env.nextRef).flatten := by
  intro n
  induction n with
  | zero => intro i env; simp [decodeLoop, decodeChunksOf]
  | succ m ih =>
    intro i env
    by_cases hneg : (env.vectors.getD i ⟨0, [], [], 0⟩).length < 0
    · simp only [decodeLoop, decodeElem_neg i env hneg]
      unfold decodeChunksOf
      rw [if_pos hneg]
      simp
    · simp only [decodeLoop, decodeElem_nonneg i env hneg]
      rcases hq : decodeLoop (i + 1) m
          { env with nextRef := env.nextRef + 6,
                     trace := env.trace ++ elemTrace env.nextRef } with ⟨rq, env2⟩
      have ih2 := ih (i + 1)
          { env with nextRef := env.nextRef + 6,
                     trace := env.trace ++ elemTrace env.nextRef }
      rw [hq] at ih2
      unfold decodeChunksOf
      rw [if_neg hneg]
      rcases rq with e|q
      all_goals
        simp only [hq]
        rw [ih2]
        simp [List.append_assoc]

/-- Helper: ConvertJavaDatasetToCppDatasetPtr's trace in closed form, for
initialized caches: the unreleased sparse-vectors array acquisition followed
by the per-iteration chunks. -/
theorem decode_trace (f g : String → Nat) (env : JEnv) :
    (ConvertJavaDatasetToCppDatasetPtr (InitializeCaches f g) env).2.trace
      = env.trace ++ REvent.acq VKind.svArray env.nextRef
          :: (decodeChunksOf env.vectors 0 env.vectors.length (env.nextRef + 1)).flatten := by
  simp only [ConvertJavaDatasetToCppDatasetPtr, findClass_dataset, findMethod_getSparseVectors,
             findClass_sv, findMethod_getLength, findMethod_getIds, findMethod_getValues,
             findMethod_getDocId]
  rcases hq : decodeLoop 0 (acquireView VKind.svArray env).vectors.length
      (acquireView VKind.svArray env) with ⟨rq, env2⟩
  have ht := decodeLoop_trace (acquireView VKind.svArray env).vectors.length 0
      (acquireView VKind.svArray env)
  rw [hq] at ht
  rcases rq with e|q
  all_goals
    simp only [hq]
    rw [ht]
    simp [acquireView, List.append_assoc]

/-- Helper: decode never writes managed state, for initialized caches,
whether it completes or aborts on a bad element. -/
theorem decode_preserves (f g : String → Nat) (env : JEnv) :
    (ConvertJavaDatasetToCppDatasetPtr (InitializeCaches f g) env).2.vectors = env.vectors
    ∧ (ConvertJavaDatasetToCppDatasetPtr (InitializeCaches f g) env).2.pending = env.pending := by
  simp only [ConvertJavaDatasetToCppDatasetPtr, findClass_dataset, findMethod_getSparseVectors,
             findClass_sv, findMethod_getLength, findMethod_getIds, findMethod_getValues,
             findMethod_getDocId]
  rcases hq : decodeLoop 0 (acquireView VKind.svArray env).vectors.length
      (acquireView VKind.svArray env) with ⟨rq, env2⟩
  have hp := decodeLoop_preserves (acquireView VKind.svArray env).vectors.length 0
      (acquireView VKind.svArray env)
  rw [hq] at hp
  rcases rq with e|q
  all_goals
    simp only [hq]
    exact ⟨hp.1, hp.2⟩

/-- Claim C9: dataset decode never modifies the managed input — the pinned
buffers are released in abort mode and nothing writes into the managed
arrays or records (also on the aborting allocation-failure path), so the
managed dataset (and the pending-exception state) after decode equals the
one passed in. -/
theorem c9_decode_preserves_managed :
    ∀ (f g : String → Nat) (env : JEnv),
      (ConvertJavaDatasetToCppDatasetPtr (InitializeCaches f g) env).2.vectors = env.vectors
      ∧ (ConvertJavaDatasetToCppDatasetPtr (InitializeCaches f g) env).2.pending = env.pending := by
  intro f g env
  exact decode_preserves f g env

/-- Helper: within one iteration's chunk, every acquire other than the stray
getDocId reference has its release in the same chunk. -/
theorem elemTrace_release (r : Nat) :
    ∀ (k : VKind) (r2 : Nat), REvent.acq k r2 ∈ elemTrace r → k ≠ VKind.docIdObj →
      REvent.rel k r2 ∈ elemTrace r := by
  intro k r2 h hk
  simp [elemTrace] at h ⊢
  rcases h with ⟨rfl, rfl⟩|⟨rfl, rfl⟩|⟨rfl, rfl⟩|⟨rfl, rfl⟩|⟨rfl, rfl⟩|⟨rfl, rfl⟩ <;> simp_all

/-- Helper: every chunk of a decode trace is either a completed iteration's
chunk or the aborting chunk of a negative-length element. -/
theorem decodeChunksOf_shape : ∀ (n : Nat) (vs : List JSparseVector) (i r : Nat)
    (c : List REvent), c ∈ decodeChunksOf vs i n r →
      (∃ r2, c = elemTrace r2) ∨ (∃ r2, c = elemTraceFail r2) := by
  intro n
  induction n with
  | zero => intro vs i r c hc; simp [decodeChunksOf] at hc
  | succ m ih =>
    intro vs i r c hc
    unfold decodeChunksOf at hc
    split at hc
    · simp only [List.mem_cons, List.not_mem_nil, or_false] at hc
      exact Or.inr ⟨r, hc⟩
    · simp only [List.mem_cons] at hc
      rcases hc with rfl|hc
      · exact Or.inl ⟨r, rfl⟩
      · exact ih vs (i + 1) (r + 6) c hc

/-- Helper: the aborting chunk contains no release at all, so its array-view
acquisitions (the subscript and weight array references) are unreleased —
the per-element leak of the allocation-failure exit. -/
theorem elemTraceFail_leak : ∀ r : Nat, allViewsReleasedB (elemTraceFail r) = false :=
  fun _ => rfl

/-- Helper: the encode loop's environment effect in closed form. -/
theorem encodeLoop_snd (ds : CppResultDataset) : ∀ (n i : Nat) (env : JEnv),
    (encodeLoop ds i n env).2
      = { env with nextRef := env.nextRef + n,
                   trace := env.trace ++ encodeRecAcqs n env.nextRef } := by
  intro n
  induction n with
  | zero => intro i env; simp [encodeLoop, encodeRecAcqs]
  | succ m ih =>
    intro i env
    simp [encodeLoop, encodeRecAcqs, ih, acquireView, List.append_assoc]
    omega

/-- Helper: ConvertCppSearchResultsToJava's appended trace in closed form,
for initialized caches. -/
theorem encode_snd (f g : String → Nat) (ds : CppResultDataset) (env : JEnv) :
    (ConvertCppSearchResultsToJava (InitializeCaches f g) ds env).2.trace
      = env.trace ++ encodeTraceOf ds env.nextRef env.allocOk := by
  simp only [ConvertCppSearchResultsToJava, findClass_searchResult, findMethod_resultCtor]
  by_cases hc : jsizeOfInt64 ds.dim < 0 ∨ env.allocOk = false
  · simp [hc, encodeTraceOf]
  · simp [hc, encodeTraceOf, encodeLoop_snd, acquireView, List.append_assoc]

/-- Helper: every acquisition in the encode loop is a resultRec reference. -/
theorem encodeRecAcqs_kinds : ∀ (n r : Nat) (k : VKind) (r2 : Nat),
    REvent.acq k r2 ∈ encodeRecAcqs n r → k = VKind.resultRec := by
  intro n
  induction n with
  | zero => intro r k r2 h; simp [encodeRecAcqs] at h
  | succ m ih =>
    intro r k r2 h
    simp only [encodeRecAcqs, List.mem_cons] at h
    rcases h with h|h
    · simp only [REvent.acq.injEq] at h
      exact h.1
    · exact ih (r + 1) k r2 h

/-- Helper: nothing encode acquires is a transient array or string view. -/
theorem encodeTraceOf_no_views (ds : CppResultDataset) (r : Nat) (ok : Bool) :
    ∀ (k : VKind) (r2 : Nat), REvent.acq k r2 ∈ encodeTraceOf ds r ok →
      arrayView k = false := by
  intro k r2 h
  unfold encodeTraceOf at h
  split at h
  · simp at h
  · simp only [List.mem_cons] at h
    rcases h with h|h
    · simp only [REvent.acq.injEq] at h
      rw [h.1]; rfl
    · rw [encodeRecAcqs_kinds _ _ k r2 h]; rfl

/-- Claim C4 (amended): decode's trace decomposes into the (unreleased)
sparse-vectors array acquisition followed by one chunk per loop iteration;
every chunk is either a completed iteration's chunk or the aborting chunk of
a negative-length element; within every completed chunk, every view acquired
for the element — the element object, its subscript-array and weight-array
references, and their two pinned element buffers — is released before the
loop advances; within an aborting chunk (the allocation-failure exit of
jni_util.cpp:165) nothing is released, so the references acquired before the
failure point leak; and result encode acquires no transient array or string
view at all.  The original claim's universal release clause thus fails twice
(see the counterexample): for the dataset-level sparse-vectors array
reference, and for the per-element views of a failing iteration. -/
theorem c4_per_iteration_release :
    ∀ (f g : String → Nat) (env : JEnv) (ds : CppResultDataset) (env2 : JEnv),
      ((ConvertJavaDatasetToCppDatasetPtr (InitializeCaches f g) env).2.trace
        = env.trace ++ REvent.acq VKind.svArray env.nextRef
            :: (decodeChunksOf env.vectors 0 env.vectors.length (env.nextRef + 1)).flatten)
      ∧ (∀ c, c ∈ decodeChunksOf env.vectors 0 env.vectors.length (env.nextRef + 1) →
          (∃ r2, c = elemTrace r2) ∨ (∃ r2, c = elemTraceFail r2))
      ∧ (∀ (r : Nat) (k : VKind) (r2 : Nat), REvent.acq k r2 ∈ elemTrace r →
          k ≠ VKind.docIdObj → REvent.rel k r2 ∈ elemTrace r)
      ∧ (∀ r : Nat, allViewsReleasedB (elemTraceFail r) = false)
      ∧ ((ConvertCppSearchResultsToJava (InitializeCaches f g) ds env2).2.trace
          = env2.trace ++ encodeTraceOf ds env2.nextRef env2.allocOk)
      ∧ (∀ (k : VKind) (r : Nat), REvent.acq k r ∈ encodeTraceOf ds env2.nextRef env2.allocOk →
          arrayView k = false) := by
  intro f g env ds env2
  exact ⟨decode_trace f g env,
         fun c hc => decodeChunksOf_shape env.vectors.length env.vectors 0 (env.nextRef + 1) c hc,
         elemTrace_release, elemTraceFail_leak,
         encode_snd f g ds env2,
         encodeTraceOf_no_views ds env2.nextRef env2.allocOk⟩

/-- Counterexample for C4 as stated, in both ways it fails: (a) decoding the
well-formed one-element dataset of envC1a acquires the sparse-vectors array
reference (an array view, handle 0) with no release anywhere in the trace;
(b) decoding the dataset of envC4neg, whose element has getLength() = -1,
aborts with std::bad_array_new_length after acquiring the element's
subscript-array reference (handle 2), which is never released — the early
failure exit the claim says still releases per-iteration. -/
theorem c4_counterexample :
    allViewsReleasedB (ConvertJavaDatasetToCppDatasetPtr util0 envC1a).2.trace = false
    ∧ (ConvertJavaDatasetToCppDatasetPtr util0 envC4neg).1
        = Except.error (CppExc.badAlloc "std::bad_array_new_length")
    ∧ (ConvertJavaDatasetToCppDatasetPtr util0 envC4neg).2.trace.contains
        (REvent.acq VKind.intArr 2) = true
    ∧ (ConvertJavaDatasetToCppDatasetPtr util0 envC4neg).2.trace.contains
        (REvent.rel VKind.intArr 2) = false := by
  exact ⟨rfl, rfl, rfl, rfl⟩

/-- Witness for C4: instantiating the amended theorem on the one-element
dataset shows the pinned int buffer acquired in the first (completed)
iteration (handle 5) is released within that iteration's chunk, and that
chunk is indeed a completed-iteration chunk. -/
theorem c4_witness :
    REvent.rel VKind.pinInt 5 ∈ elemTrace 1
    ∧ ((∃ r2, elemTrace 1 = elemTrace r2) ∨ (∃ r2, elemTrace 1 = elemTraceFail r2)) :=
  ⟨(c4_per_iteration_release f0 g0 envC1a ⟨[], [], 0⟩ env0).2.2.1 1 VKind.pinInt 5
      (by simp [elemTrace]) (by decide),
   (c4_per_iteration_release f0 g0 envC1a ⟨[], [], 0⟩ env0).2.1 (elemTrace 1)
      (by simp [envC1a, decodeChunksOf, elemTrace])⟩

/-- Claim C2: every exposed operation wraps its entire body in a single
catch-all boundary: whenever the body fails with any C++-level failure
(raised during decode, handle resolution, the native library call, or
encode), the operation translates it into a raised managed exception —
leaving exactly the translation table's (class, message) pair pending — and
returns its sentinel (zero for createIndex, null/none for add and knnSearch,
unit for the void operations); the wrappers are total functions, so no
native-level failure ever propagates past the boundary (cleanup's body
cannot fail at all, which the final conjunct records as a total equation). -/
theorem c2_dispatch_catch_all :
    (∀ (o : VsagOracle) (s1 s2 : Option JStringV) (env : JEnv) (e : CppExc) (env2 : JEnv),
      createIndexBody o s1 s2 env = (Except.error e, env2) →
        createIndexJNI o s1 s2 env = (0, CatchCppExceptionAndThrowJava e env2)
        ∧ (createIndexJNI o s1 s2 env).2.pending = some (translateSpec e))
    ∧ (∀ (o : VsagOracle) (u : JNIUtilState) (hdl : Int) (env : JEnv) (e : CppExc) (env2 : JEnv),
      addBody o u hdl env = (Except.error e, env2) →
        addJNI o u hdl env = (none, CatchCppExceptionAndThrowJava e env2)
        ∧ (addJNI o u hdl env).2.pending = some (translateSpec e))
    ∧ (∀ (o : VsagOracle) (u : JNIUtilState) (hdl : Int) (jk : Int) (sp : Option JStringV)
        (env : JEnv) (e : CppExc) (env2 : JEnv),
      knnSearchBody o u hdl jk sp env = (Except.error e, env2) →
        knnSearchJNI o u hdl jk sp env = (none, CatchCppExceptionAndThrowJava e env2)
        ∧ (knnSearchJNI o u hdl jk sp env).2.pending = some (translateSpec e))
    ∧ (∀ (o : VsagOracle) (hdl : Int) (fp : Option JStringV) (env : JEnv) (e : CppExc) (env2 : JEnv),
      serializeIndexBody o hdl fp env = (Except.error e, env2) →
        serializeIndexJNI o hdl fp env = ((), CatchCppExceptionAndThrowJava e env2)
        ∧ (serializeIndexJNI o hdl fp env).2.pending = some (translateSpec e))
    ∧ (∀ (o : VsagOracle) (hdl : Int) (fp : Option JStringV) (env : JEnv) (e : CppExc) (env2 : JEnv),
      deserializeIndexBody o hdl fp env = (Except.error e, env2) →
        deserializeIndexJNI o hdl fp env = ((), CatchCppExceptionAndThrowJava e env2)
        ∧ (deserializeIndexJNI o hdl fp env).2.pending = some (translateSpec e))
    ∧ (∀ (hdl : Int) (env : JEnv) (e : CppExc) (env2 : JEnv),
      cleanupBody hdl env = (Except.error e, env2) →
        cleanupJNI hdl env = ((), CatchCppExceptionAndThrowJava e env2)
        ∧ (cleanupJNI hdl env).2.pending = some (translateSpec e))
    ∧ (∀ (hdl : Int) (env : JEnv), cleanupJNI hdl env = ((), (cleanupBody hdl env).2)) := by
  refine ⟨?_, ?_, ?_, ?_, ?_, ?_, ?_⟩
  · intro o s1 s2 env e env2 hb
    refine ⟨by simp [createIndexJNI, hb], ?_⟩
    simp only [createIndexJNI, hb]
    exact catch_sets_pending e env2
  · intro o u hdl env e env2 hb
    refine ⟨by simp [addJNI, hb], ?_⟩
    simp only [addJNI, hb]
    exact catch_sets_pending e env2
  · intro o u hdl jk sp env e env2 hb
    refine ⟨by simp [knnSearchJNI, hb], ?_⟩
    simp only [knnSearchJNI, hb]
    exact catch_sets_pending e env2
  · intro o hdl fp env e env2 hb
    refine ⟨by simp [serializeIndexJNI, hb], ?_⟩
    simp only [serializeIndexJNI, hb]
    exact catch_sets_pending e env2
  · intro o hdl fp env e env2 hb
    refine ⟨by simp [deserializeIndexJNI, hb], ?_⟩
    simp only [deserializeIndexJNI, hb]
    exact catch_sets_pending e env2
  · intro hdl env e env2 hb
    refine ⟨by simp [cleanupJNI, hb], ?_⟩
    simp only [cleanupJNI, hb]
    exact catch_sets_pending e env2
  · intro hdl env
    by_cases h0 : hdl = 0 <;> simp [cleanupJNI, cleanupBody, h0]

/-- Witness for C2: createIndex invoked with a null index-type string fails
in decode; the boundary translates it and returns the zero sentinel. -/
theorem c2_witness :
    createIndexJNI oracle0 none none env0
        = (0, CatchCppExceptionAndThrowJava (CppExc.runtimeError "String cannot be null") env0)
    ∧ (createIndexJNI oracle0 none none env0).2.pending
        = some (translateSpec (CppExc.runtimeError "String cannot be null")) :=
  c2_dispatch_catch_all.1 oracle0 none none env0
    (CppExc.runtimeError "String cannot be null") env0 rfl

/-- Helper: the spec-side encode result has one record per index. -/
theorem specResultsFrom_length (ds : CppResultDataset) :
    ∀ (n i : Nat), (specResultsFrom ds i n).length = n := by
  intro n
  induction n with
  | zero => intro i; rfl
  | succ m ih => intro i; simp [specResultsFrom, ih]

/-- Helper: the j-th record of the spec-side encode result. -/
theorem specResultsFrom_getD (ds : CppResultDataset) :
    ∀ (n j i : Nat), j < n →
      (specResultsFrom ds i n).getD j ⟨0, JFloat.ofBits 0⟩
        = ⟨ds.ids.getD (i + j) 0, JFloat.oneMinus (JFloat.ofBits (ds.distances.getD (i + j) 0))⟩ := by
  intro n
  induction n with
  | zero => intro j i h; exact absurd h (by omega)
  | succ m ih =>
    intro j i h
    cases j with
    | zero => simp [specResultsFrom]
    | succ jj =>
      have h2 := ih jj (i + 1) (by omega)
      have h3 : i + 1 + jj = i + (jj + 1) := by omega
      rw [h3] at h2
      simpa [specResultsFrom, List.getD_cons_succ] using h2

/-- Helper: the encode loop computes exactly the spec-side records. -/
theorem encodeLoop_fst (ds : CppResultDataset) : ∀ (n i : Nat) (env : JEnv),
    (encodeLoop ds i n env).1 = specResultsFrom ds i n := by
  intro n
  induction n with
  | zero => intro i env; rfl
  | succ m ih => intro i env; simp [encodeLoop, specResultsFrom, ih]

/-- Helper: the jsize narrowing is the identity on [0, 2^31). -/
theorem jsize_id (x : Int) (h0 : 0 ≤ x) (h1 : x < 2147483648) : jsizeOfInt64 x = x := by
  unfold jsizeOfInt64
  rw [Int.emod_eq_of_lt (by omega) (by omega)]
  omega

/-- Claim C5: for a native result Dataset whose count fits a jsize and with
allocation succeeding, encoding produces exactly count-many managed records;
record i carries the native identifier at i unchanged and the score
1 - distance(i), with the (already 32-bit) distance narrowed before the
symbolic subtraction. -/
theorem c5_encode_results :
    ∀ (f g : String → Nat) (ds : CppResultDataset) (env : JEnv),
      0 ≤ ds.dim → ds.dim < 2147483648 → env.allocOk = true →
      (ConvertCppSearchResultsToJava (InitializeCaches f g) ds env).1
          = Except.ok (specSearchResults ds)
      ∧ (specSearchResults ds).length = ds.dim.toNat
      ∧ (∀ i, i < ds.dim.toNat →
          (specSearchResults ds).getD i ⟨0, JFloat.ofBits 0⟩
            = ⟨ds.ids.getD i 0, JFloat.oneMinus (JFloat.ofBits (ds.distances.getD i 0))⟩) := by
  intro f g ds env h0 h1 hok
  refine ⟨?_, specResultsFrom_length ds ds.dim.toNat 0, ?_⟩
  · simp only [ConvertCppSearchResultsToJava, findClass_searchResult, findMethod_resultCtor]
    rw [jsize_id ds.dim h0 h1]
    rw [if_neg (by push_neg; exact ⟨by omega, by simp [hok]⟩)]
    simp [encodeLoop_fst, specSearchResults]
  · intro i hi
    have h := specResultsFrom_getD ds ds.dim.toNat i 0 hi
    simpa using h

/-- Witness for C5: encoding the concrete result dataset dsW yields the
spec-side records, and its second record is (11, 1 - ofBits 9). -/
theorem c5_witness :
    (ConvertCppSearchResultsToJava util0 dsW env0).1 = Except.ok (specSearchResults dsW)
    ∧ (specSearchResults dsW).getD 1 ⟨0, JFloat.ofBits 0⟩
        = ⟨11, JFloat.oneMinus (JFloat.ofBits 9)⟩ := by
  have h := c5_encode_results f0 g0 dsW env0 (by decide) (by decide) rfl
  refine ⟨h.1, ?_⟩
  have h2 := h.2.2 1 (by decide)
  simpa [dsW] using h2

/-- Helper: string conversion never touches the native box heap. -/
theorem convString_frame (js : Option JStringV) (env : JEnv) :
    (ConvertJavaStringToCppString js env).2.boxes = env.boxes
    ∧ (ConvertJavaStringToCppString js env).2.nextBox = env.nextBox := by
  rcases js with _|s
  · exact ⟨rfl, rfl⟩
  · rcases h : s.chars with _|str
    · simp [ConvertJavaStringToCppString, h]
    · simp [ConvertJavaStringToCppString, h, acquireView, releaseView]

/-- Claim C6: cleanup(0) is a no-op — no deallocation, no raised exception,
the environment is returned untouched; and for a nonzero handle returned by
createIndex (fresh with respect to the pre-existing heap), cleanup removes
exactly the one heap box holding the shared native instance: its count drops
from 1 to 0, nothing else changes, and no exception is raised. -/
theorem c6_cleanup :
    (∀ env : JEnv, cleanupJNI 0 env = ((), env))
    ∧ (∀ (o : VsagOracle) (s1 s2 : Option JStringV) (env : JEnv) (hdl : Int) (env1 : JEnv),
        (∀ b, b ∈ env.boxes → b ≠ Int.ofNat env.nextBox + 1) →
        createIndexJNI o s1 s2 env = (hdl, env1) →
        hdl ≠ 0 →
        env1.boxes.count hdl = 1
        ∧ cleanupJNI hdl env1 = ((), { env1 with boxes := env1.boxes.erase hdl })
        ∧ (cleanupJNI hdl env1).2.boxes.count hdl = 0
        ∧ (cleanupJNI hdl env1).2.pending = env1.pending) := by
  constructor
  · intro env; rfl
  · intro o s1 s2 env hdl env1 hfresh hJ hne
    rcases hc1 : ConvertJavaStringToCppString s1 env with ⟨r1, envA⟩
    rcases r1 with e1|str1
    · have hbody : createIndexBody o s1 s2 env = (Except.error e1, envA) := by
        simp [createIndexBody, hc1]
      simp only [createIndexJNI, hbody] at hJ
      injection hJ with h1 h2
      exact absurd h1.symm hne
    · rcases hc2 : ConvertJavaStringToCppString s2 envA with ⟨r2, envB⟩
      rcases r2 with e2|str2
      · have hbody : createIndexBody o s1 s2 env = (Except.error e2, envB) := by
          simp [createIndexBody, hc1, hc2]
        simp only [createIndexJNI, hbody] at hJ
        injection hJ with h1 h2
        exact absurd h1.symm hne
      · rcases hf : o.factoryCreate str1 str2 with m|uu
        · have hbody : createIndexBody o s1 s2 env
              = (Except.error (CppExc.runtimeError
                  ("Failed to create the index using vsag lib. Error: " ++ m)), envB) := by
            simp [createIndexBody, hc1, hc2, hf]
          simp only [createIndexJNI, hbody] at hJ
          injection hJ with h1 h2
          exact absurd h1.symm hne
        · have hbody : createIndexBody o s1 s2 env
              = (Except.ok (Int.ofNat envB.nextBox + 1),
                 { envB with nextBox := envB.nextBox + 1,
                             boxes := envB.boxes ++ [Int.ofNat envB.nextBox + 1] }) := by
            simp [createIndexBody, hc1, hc2, hf]
          simp only [createIndexJNI, hbody] at hJ
          injection hJ with h1 h2
          have hAb : envA.boxes = env.boxes := by
            have h3 := (convString_frame s1 env).1
            rw [hc1] at h3
            exact h3
          have hAn : envA.nextBox = env.nextBox := by
            have h3 := (convString_frame s1 env).2
            rw [hc1] at h3
            exact h3
          have hBb : envB.boxes = env.boxes := by
            have h3 := (convString_frame s2 envA).1
            rw [hc2] at h3
            exact h3.trans hAb
          have hBn : envB.nextBox = env.nextBox := by
            have h3 := (convString_frame s2 envA).2
            rw [hc2] at h3
            exact h3.trans hAn
          subst h2
          subst h1
          have hnm : Int.ofNat envB.nextBox + 1 ∉ env.boxes := by
            intro hmem
            exact hfresh _ hmem (by rw [hBn])
          have hcount : (envB.boxes ++ [Int.ofNat envB.nextBox + 1]).count
              (Int.ofNat envB.nextBox + 1) = 1 := by
            rw [hBb, List.count_append, List.count_eq_zero.2 hnm]
            simp
          refine ⟨hcount, ?_, ?_, ?_⟩
          · simp only [cleanupJNI, cleanupBody, if_neg hne]
          · simp only [cleanupJNI, cleanupBody, if_neg hne]
            rw [List.erase_append_right _ (by rw [hBb]; exact hnm)]
            simp only [List.erase_cons_head]
            rw [List.count_append, List.count_eq_zero.2 (by rw [hBb]; exact hnm)]
            rfl
          · simp only [cleanupJNI, cleanupBody, if_neg hne]

/-- Witness for C6: a concrete create-then-cleanup run; the handle 1 is
allocated by createIndex on the empty environment and removed exactly once
by cleanup. -/
theorem c6_witness :
    envAfterCreate.boxes.count 1 = 1
    ∧ cleanupJNI 1 envAfterCreate
        = ((), { envAfterCreate with boxes := envAfterCreate.boxes.erase 1 })
    ∧ (cleanupJNI 1 envAfterCreate).2.boxes.count 1 = 0
    ∧ (cleanupJNI 1 envAfterCreate).2.pending = envAfterCreate.pending := by
  have h := c6_cleanup.2 oracle0 jsHnsw jsParams env0 1 envAfterCreate
    (by intro b hb; simp [env0] at hb) (by rfl) (by decide)
  exact h

end NSJni
